import Mathlib

/-!
Verification of the BranchHQ phone-rotation and sticky-session selection
engine, shallowly embedded from the TypeScript sources
(`src/lib/rotation.ts`, `src/services/phoneSelector.ts`, `src/db/phones.ts`,
`src/routes/redirect.ts`).

Strings that the code manipulates as data (ids, phone numbers, IPs,
user-agent strings, hash inputs/outputs) are embedded as `List Nat` of
their code units / bytes; tag strings compared against fixed literals
(rotation modes, statuses, provenance tags) are embedded as Lean `String`.
JavaScript numbers that always hold integers are embedded as `Nat`/`Int`
with explicit `% 2 ^ w` where the source relies on 32-bit wrap-around.
-/

namespace BranchHQ

/-- Data strings (JS strings viewed as their sequence of code units). -/
abbrev Str := List Nat

/-! ## Deterministic shuffle (`src/lib/rotation.ts`, `stableShuffle`)

The source folds the seed string into a 32-bit accumulator
(`seedNum = ((seedNum << 5) - seedNum + seed.charCodeAt(i)) | 0`, i.e.
`seedNum := 31 * seedNum + c (mod 2^32)`), then drives the LCG
`seedNum = (seedNum * 1103515245 + 12345) & 0x7fffffff` and uses
`seedNum / 0x7fffffff` as the pseudo-random fraction.  We model the
integer computations exactly (`% 2^32`, `% 2^31`) and the drawn index
`Math.floor(r * (i + 1))` as the exact rational floor
`state * (i + 1) / 0x7fffffff`.  Because the divisor is `0x7fffffff`
(not `0x80000000`) the fraction can only reach `1.0` at state
`0x7fffffff`; in the source's IEEE-double semantics that state is
unreachable (any inexact step produces an even low word), so the drawn
index always satisfies `j ≤ i` and the swap is always in bounds; the
swap is modelled total with an in-bounds guard. -/

/-- `seedNum` accumulation over the seed's code units, 32-bit wrap-around. -/
def jsFold (seed : Str) : Nat :=
  seed.foldl (fun s c => (31 * s + c) % 4294967296) 0

/-- One step of the seeded LCG, masked to 31 bits (`& 0x7fffffff`). -/
def lcgNext (s : Nat) : Nat :=
  (s * 1103515245 + 12345) % 2147483648

/-- `Math.floor(seededRandom() * bound)` where `seededRandom()` is
`state / 0x7fffffff`, as the exact rational floor. -/
def drawIndex (state bound : Nat) : Nat :=
  state * bound / 2147483647

/-- Swap the elements at positions `i` and `j` (the JS destructuring
`[a[i], a[j]] = [a[j], a[i]]`), total via an in-bounds guard. -/
def swapAt (l : List α) (i j : Nat) : List α :=
  if h : i < l.length ∧ j < l.length then
    (l.set i (l.get ⟨j, h.2⟩)).set j (l.get ⟨i, h.1⟩)
  else l

/-- The Fisher–Yates loop `for (let i = result.length - 1; i > 0; i--)`,
recursing on the loop index `i`; returns the array and the final LCG state. -/
def fyLoop (l : List α) (s : Nat) : Nat → List α
  | 0 => l
  | i + 1 =>
    let s' := lcgNext s
    let j := drawIndex s' (i + 2)
    fyLoop (swapAt l (i + 1) j) s' i

/-- `stableShuffle` from `src/lib/rotation.ts`. -/
def stableShuffle (items : List α) (seed : Str) : List α :=
  if items.length ≤ 1 then items
  else fyLoop items (jsFold seed) (items.length - 1)

/-! ### The shuffle output is a permutation of the input -/

theorem get_cons_set_perm (t : List α) (k : Nat) (hk : k < t.length) (a : α) :
    List.Perm (t.get ⟨k, hk⟩ :: t.set k a) (a :: t) := by
  induction t generalizing k with
  | nil => cases hk
  | cons b s ih =>
    cases k with
    | zero => simpa using List.Perm.swap a b s
    | succ k =>
      have hk' : k < s.length := Nat.lt_of_succ_lt_succ hk
      have p1 : List.Perm (s.get ⟨k, hk'⟩ :: b :: s.set k a)
          (b :: s.get ⟨k, hk'⟩ :: s.set k a) := List.Perm.swap _ _ _
      have p2 : List.Perm (b :: s.get ⟨k, hk'⟩ :: s.set k a) (b :: (a :: s)) :=
        List.Perm.cons b (ih k hk')
      have p3 : List.Perm (b :: a :: s) (a :: b :: s) := List.Perm.swap _ _ _
      show List.Perm (s.get ⟨k, hk'⟩ :: b :: s.set k a) (a :: b :: s)
      exact (p1.trans p2).trans p3

theorem set_set_swap_perm (l : List α) (i j : Nat)
    (hi : i < l.length) (hj : j < l.length) :
    List.Perm ((l.set i (l.get ⟨j, hj⟩)).set j (l.get ⟨i, hi⟩)) l := by
  induction l generalizing i j with
  | nil => cases hi
  | cons a t ih =>
    cases i with
    | zero =>
      cases j with
      | zero => simp
      | succ j =>
        have hj' : j < t.length := Nat.lt_of_succ_lt_succ hj
        show List.Perm (t.get ⟨j, hj'⟩ :: t.set j a) (a :: t)
        exact get_cons_set_perm t j hj' a
    | succ i =>
      have hi' : i < t.length := Nat.lt_of_succ_lt_succ hi
      cases j with
      | zero =>
        show List.Perm (t.get ⟨i, hi'⟩ :: t.set i a) (a :: t)
        exact get_cons_set_perm t i hi' a
      | succ j =>
        have hj' : j < t.length := Nat.lt_of_succ_lt_succ hj
        exact List.Perm.cons a (ih i j hi' hj')

theorem swapAt_perm (l : List α) (i j : Nat) : List.Perm (swapAt l i j) l := by
  unfold swapAt
  split
  · next h => exact set_set_swap_perm l i j h.1 h.2
  · exact List.Perm.refl l

theorem fyLoop_perm (l : List α) (s i : Nat) : List.Perm (fyLoop l s i) l := by
  induction i generalizing l s with
  | zero => exact List.Perm.refl l
  | succ i ih =>
    exact (ih (swapAt l (i + 1) (drawIndex (lcgNext s) (i + 2))) (lcgNext s)).trans
      (swapAt_perm l (i + 1) _)

theorem stableShuffle_perm (items : List α) (seed : Str) :
    List.Perm (stableShuffle items seed) items := by
  unfold stableShuffle
  split
  · exact List.Perm.refl items
  · exact fyLoop_perm items (jsFold seed) (items.length - 1)

theorem stableShuffle_length (items : List α) (seed : Str) :
    (stableShuffle items seed).length = items.length :=
  (stableShuffle_perm items seed).length_eq

/-- C2: for every sequence of items and every seed, `stableShuffle`
returns a permutation of the input: same length and the same multiset of
elements, every input item appearing exactly once. -/
theorem C2_stableShuffle_is_permutation (items : List α) (seed : Str) :
    List.Perm (stableShuffle items seed) items ∧
      (stableShuffle items seed).length = items.length :=
  ⟨stableShuffle_perm items seed, stableShuffle_length items seed⟩

/-! ## `selectPhone` (`src/lib/rotation.ts`) -/

/-- A pool entry as consumed by `selectPhone`
(`interface PhoneEntry { id; phoneNumber; weight }`). -/
structure PhoneEntry where
  id : Str
  phoneNumber : Str
  weight : Int
deriving DecidableEq, Repr

/-- `phones.every((p) => p.weight === 1)`. -/
def allWeightsOne (phones : List PhoneEntry) : Bool :=
  phones.all (fun p => p.weight == 1)

/-- The weighted-mode pool expansion: each entry duplicated `weight`
times (`for (let i = 0; i < phone.weight; i++) expanded.push(phone)`;
a non-positive weight contributes no copies). -/
def expandByWeight (phones : List PhoneEntry) : List PhoneEntry :=
  phones.flatMap (fun p => List.replicate p.weight.toNat p)

/-- The 1-based modulo index `(counter - 1) % shuffled.length` followed by
the clamp `idx >= 0 ? idx : 0`.  JavaScript `%` is the truncated remainder,
i.e. `Int.tmod`. -/
def jsModIndex (counter : Int) (len : Nat) : Nat :=
  let idx := (counter - 1).tmod (len : Int)
  (if 0 ≤ idx then idx else 0).toNat

/-- `selectPhone` from `src/lib/rotation.ts`; `none` models `null`
(and an out-of-range access producing `undefined`). -/
def selectPhone (phones : List PhoneEntry) (counter : Int) (mode : String)
    (seed : Str) : Option PhoneEntry :=
  if phones.length = 0 then none
  else if phones.length = 1 then phones[0]?
  else
    match mode with
    | "ROUND_ROBIN_SHUFFLED" | "RANDOM_NO_REPEAT_EPOCH" =>
      let shuffled := stableShuffle phones seed
      shuffled[jsModIndex counter shuffled.length]?
    | "WEIGHTED" =>
      if allWeightsOne phones then
        let shuffled := stableShuffle phones seed
        shuffled[jsModIndex counter shuffled.length]?
      else
        let expanded := expandByWeight phones
        let shuffled := stableShuffle expanded seed
        shuffled[jsModIndex counter shuffled.length]?
    | _ => phones[0]?

/-- The list that `selectPhone` indexes into, per mode (the pool itself
when the length short-circuits apply, else the seeded shuffle of the
pool or of its weighted expansion). -/
def indexedPool (phones : List PhoneEntry) (mode : String) (seed : Str) :
    List PhoneEntry :=
  if phones.length ≤ 1 then phones
  else
    match mode with
    | "ROUND_ROBIN_SHUFFLED" | "RANDOM_NO_REPEAT_EPOCH" =>
      stableShuffle phones seed
    | "WEIGHTED" =>
      if allWeightsOne phones then stableShuffle phones seed
      else stableShuffle (expandByWeight phones) seed
    | _ => phones

/-! ### Index arithmetic -/

theorem getElem?_zero_eq_head? (l : List α) : l[0]? = l.head? := by
  cases l <;> simp

/-- JavaScript `%` (truncated remainder) of a non-positive dividend is
non-positive. -/
theorem tmod_nonpos_of_nonpos (a b : Int) (h : a ≤ 0) : a.tmod b ≤ 0 := by
  match a, b with
  | .ofNat m, b =>
    have hm : m = 0 := by
      rcases m with _ | m
      · rfl
      · exact absurd h (by exact Int.not_le.mpr (by exact Int.ofNat_succ_pos m))
    subst hm
    show Int.tmod 0 b ≤ 0
    simp
  | .negSucc m, .ofNat n =>
    show -Int.ofNat (m.succ % n) ≤ 0
    have : (0 : Int) ≤ Int.ofNat (m.succ % n) := Int.ofNat_nonneg _
    omega
  | .negSucc m, .negSucc n =>
    show -Int.ofNat (m.succ % n.succ) ≤ 0
    have : (0 : Int) ≤ Int.ofNat (m.succ % n.succ) := Int.ofNat_nonneg _
    omega

theorem jsModIndex_of_nonpos (counter : Int) (len : Nat) (h : counter ≤ 0) :
    jsModIndex counter len = 0 := by
  have h1 : (counter - 1).tmod (len : Int) ≤ 0 :=
    tmod_nonpos_of_nonpos _ _ (by omega)
  unfold jsModIndex
  simp only []
  split <;> omega

theorem jsModIndex_of_lt (k len : Nat) (h : k < len) :
    jsModIndex ((k : Int) + 1) len = k := by
  unfold jsModIndex
  have e : ((k : Int) + 1 - 1) = (k : Int) := by omega
  rw [e]
  have h2 : (k : Int).tmod (len : Int) = (k : Int) := by
    rw [Int.tmod_eq_emod (by omega) (by omega)]
    exact Int.emod_eq_of_lt (by omega) (by omega)
  rw [h2]
  simp

theorem jsModIndex_add_len (k len : Nat) (hlen : 0 < len) :
    jsModIndex ((len : Int) + (k : Int) + 1) len = jsModIndex ((k : Int) + 1) len := by
  unfold jsModIndex
  have e1 : ((len : Int) + (k : Int) + 1 - 1) = (k : Int) + (len : Int) := by omega
  have e2 : ((k : Int) + 1 - 1) = (k : Int) := by omega
  rw [e1, e2]
  have h1 : ((k : Int) + (len : Int)).tmod (len : Int) = (k : Int).tmod (len : Int) := by
    rw [Int.tmod_eq_emod (by omega) (by omega), Int.tmod_eq_emod (by omega) (by omega)]
    exact Int.add_emod_self
  rw [h1]

/-- Bridge: for the three recognized modes, `selectPhone` is exactly an
index into `indexedPool` at `jsModIndex`. -/
theorem selectPhone_eq_indexedPool (phones : List PhoneEntry) (counter : Int)
    (mode : String) (seed : Str)
    (hm : mode = "ROUND_ROBIN_SHUFFLED" ∨ mode = "RANDOM_NO_REPEAT_EPOCH" ∨
      mode = "WEIGHTED") :
    selectPhone phones counter mode seed =
      (indexedPool phones mode seed)[jsModIndex counter
        (indexedPool phones mode seed).length]? := by
  by_cases h0 : phones.length = 0
  · have : phones = [] := List.length_eq_zero.mp h0
    subst this
    rcases hm with h | h | h <;> subst h <;> rfl
  · by_cases h1 : phones.length = 1
    · match phones, h1 with
      | [p], _ =>
        have hidx : jsModIndex counter 1 = 0 := by
          unfold jsModIndex
          simp
        rcases hm with h | h | h <;> subst h <;>
          simp [selectPhone, indexedPool, hidx]
    · have hle : ¬ phones.length ≤ 1 := by omega
      rcases hm with h | h | h <;> subst h
      · simp only [selectPhone, indexedPool, if_neg h0, if_neg h1, if_neg hle]
      · simp only [selectPhone, indexedPool, if_neg h0, if_neg h1, if_neg hle]
      · by_cases hw : allWeightsOne phones <;>
          simp only [selectPhone, indexedPool, if_neg h0, if_neg h1, if_neg hle,
            hw, if_true, if_false, Bool.false_eq_true]

theorem indexedPool_rrs (phones : List PhoneEntry) (seed : Str) :
    indexedPool phones "ROUND_ROBIN_SHUFFLED" seed = stableShuffle phones seed := by
  unfold indexedPool stableShuffle
  by_cases h : phones.length ≤ 1 <;> simp [h]

theorem expandByWeight_ne_nil (phones : List PhoneEntry)
    (hne : phones ≠ []) (hw : ∀ p ∈ phones, 1 ≤ p.weight) :
    expandByWeight phones ≠ [] := by
  match phones, hne with
  | p :: rest, _ =>
    have h1 : 1 ≤ p.weight := hw p (by simp)
    apply List.ne_nil_of_length_pos
    simp [expandByWeight]
    omega

theorem indexedPool_ne_nil (phones : List PhoneEntry) (mode : String) (seed : Str)
    (hne : phones ≠ []) (hw : ∀ p ∈ phones, 1 ≤ p.weight) :
    indexedPool phones mode seed ≠ [] := by
  have hlen : 0 < phones.length := List.length_pos.mpr hne
  unfold indexedPool
  split
  · exact hne
  · split
    · apply List.ne_nil_of_length_pos
      rw [stableShuffle_length]
      exact hlen
    · apply List.ne_nil_of_length_pos
      rw [stableShuffle_length]
      exact hlen
    · split
      · apply List.ne_nil_of_length_pos
        rw [stableShuffle_length]
        exact hlen
      · apply List.ne_nil_of_length_pos
        rw [stableShuffle_length]
        exact List.length_pos.mpr (expandByWeight_ne_nil phones hne hw)
    · exact hne

/-- C4: when every entry's weight is 1, WEIGHTED selection coincides with
ROUND_ROBIN_SHUFFLED selection for every counter and seed. -/
theorem C4_weighted_equal_weights_eq_round_robin (phones : List PhoneEntry)
    (counter : Int) (seed : Str) (h : ∀ p ∈ phones, p.weight = 1) :
    selectPhone phones counter "WEIGHTED" seed =
      selectPhone phones counter "ROUND_ROBIN_SHUFFLED" seed := by
  have hall : allWeightsOne phones = true := by
    unfold allWeightsOne
    rw [List.all_eq_true]
    intro p hp
    exact beq_iff_eq.mpr (h p hp)
  by_cases h0 : phones.length = 0
  · simp [selectPhone, h0]
  · by_cases h1 : phones.length = 1
    · simp [selectPhone, h0, h1]
    · simp only [selectPhone, if_neg h0, if_neg h1, hall, if_true]

/-- C4 witness: a concrete pool of three weight-1 entries. -/
def pool3 : List PhoneEntry :=
  [⟨[49], [43, 49, 49, 49, 49], 1⟩, ⟨[50], [43, 50, 50, 50, 50], 1⟩,
    ⟨[51], [43, 51, 51, 51, 51], 1⟩]

theorem C4_weighted_equal_weights_eq_round_robin_witness :
    selectPhone pool3 5 "WEIGHTED" [116, 101, 115, 116] =
      selectPhone pool3 5 "ROUND_ROBIN_SHUFFLED" [116, 101, 115, 116] :=
  C4_weighted_equal_weights_eq_round_robin pool3 5 [116, 101, 115, 116] (by decide)

/-- C10: for a non-empty pool with positive weights, a non-positive
counter, and any of the three recognized modes, `selectPhone` clamps the
non-positive 1-based modulo index to 0 and returns the first element of
the (possibly weight-expanded) shuffled pool — never `null`/`undefined`. -/
theorem C10_nonpositive_counter_clamps_to_first (phones : List PhoneEntry)
    (counter : Int) (mode : String) (seed : Str)
    (hne : phones ≠ []) (hw : ∀ p ∈ phones, 1 ≤ p.weight) (hc : counter ≤ 0)
    (hm : mode = "ROUND_ROBIN_SHUFFLED" ∨ mode = "RANDOM_NO_REPEAT_EPOCH" ∨
      mode = "WEIGHTED") :
    selectPhone phones counter mode seed = (indexedPool phones mode seed).head? ∧
      (selectPhone phones counter mode seed).isSome = true := by
  have hbridge := selectPhone_eq_indexedPool phones counter mode seed hm
  rw [jsModIndex_of_nonpos counter _ hc, getElem?_zero_eq_head?] at hbridge
  refine ⟨hbridge, ?_⟩
  rw [hbridge]
  match hip : indexedPool phones mode seed, indexedPool_ne_nil phones mode seed hne hw with
  | x :: rest, _ => rfl

theorem C10_nonpositive_counter_clamps_to_first_witness :
    selectPhone pool3 0 "WEIGHTED" [115] = (indexedPool pool3 "WEIGHTED" [115]).head? ∧
      (selectPhone pool3 0 "WEIGHTED" [115]).isSome = true :=
  C10_nonpositive_counter_clamps_to_first pool3 0 "WEIGHTED" [115]
    (by decide) (by decide) (by decide) (Or.inr (Or.inr rfl))

/-! ### C3: complete cycles in ROUND_ROBIN_SHUFFLED mode -/

/-- The results of `selectPhone` for counters `start+1 .. start+n`. -/
def selectionCycle (phones : List PhoneEntry) (mode : String) (seed : Str)
    (start n : Nat) : List (Option PhoneEntry) :=
  (List.range n).map
    (fun (k : Nat) => selectPhone phones ((start : Int) + (k : Int) + 1) mode seed)

theorem count_map_some {α : Type} [BEq α] [LawfulBEq α] (l : List α) (p : α) :
    List.count (some p) (l.map some) = List.count p l := by
  induction l with
  | nil => rfl
  | cons a t ih => simp [List.count_cons, ih]

theorem selectPhone_rrs_at (phones : List PhoneEntry) (seed : Str) (k : Nat)
    (hk : k < phones.length) :
    selectPhone phones ((k : Int) + 1) "ROUND_ROBIN_SHUFFLED" seed =
      (stableShuffle phones seed)[k]? := by
  rw [selectPhone_eq_indexedPool phones _ _ seed (Or.inl rfl), indexedPool_rrs,
    stableShuffle_length, jsModIndex_of_lt k phones.length hk]

/-- C3: in ROUND_ROBIN_SHUFFLED mode, counters `1..N` produce exactly the
shuffled pool (each distinct pool member exactly once), and counters
`N+1..2N` reproduce the identical sequence. -/
theorem C3_round_robin_complete_cycle (phones : List PhoneEntry) (seed : Str)
    (hne : phones ≠ []) (hnd : phones.Nodup) :
    selectionCycle phones "ROUND_ROBIN_SHUFFLED" seed 0 phones.length =
        (stableShuffle phones seed).map some ∧
      (∀ p ∈ phones,
        (selectionCycle phones "ROUND_ROBIN_SHUFFLED" seed 0 phones.length).count
          (some p) = 1) ∧
      selectionCycle phones "ROUND_ROBIN_SHUFFLED" seed phones.length phones.length =
        selectionCycle phones "ROUND_ROBIN_SHUFFLED" seed 0 phones.length := by
  have hlen : 0 < phones.length := List.length_pos.mpr hne
  have hshuf : (stableShuffle phones seed).length = phones.length :=
    stableShuffle_length phones seed
  have hfirst : selectionCycle phones "ROUND_ROBIN_SHUFFLED" seed 0 phones.length =
      (stableShuffle phones seed).map some := by
    apply List.ext_getElem
    · simp [selectionCycle, hshuf]
    · intro i h1 h2
      have hi : i < phones.length := by
        simpa [selectionCycle] using h1
      simp only [selectionCycle, List.getElem_map, List.getElem_range]
      have e : ((0 : Nat) : Int) + (i : Int) + 1 = (i : Int) + 1 := by omega
      rw [e, selectPhone_rrs_at phones seed i hi,
        List.getElem?_eq_getElem (by omega)]
  refine ⟨hfirst, ?_, ?_⟩
  · intro p hp
    rw [hfirst, count_map_some, (stableShuffle_perm phones seed).count_eq]
    exact List.count_eq_one_of_mem hnd hp
  · apply List.ext_getElem
    · simp [selectionCycle]
    · intro i h1 h2
      have hi : i < phones.length := by
        simpa [selectionCycle] using h1
      simp only [selectionCycle, List.getElem_map, List.getElem_range]
      have e : ((0 : Nat) : Int) + (i : Int) + 1 = (i : Int) + 1 := by omega
      rw [e]
      rw [selectPhone_eq_indexedPool phones _ _ seed (Or.inl rfl),
        selectPhone_eq_indexedPool phones _ _ seed (Or.inl rfl)]
      rw [indexedPool_rrs, hshuf, jsModIndex_add_len i phones.length hlen]

theorem C3_round_robin_complete_cycle_witness :
    selectionCycle pool3 "ROUND_ROBIN_SHUFFLED" [120] 0 3 =
        (stableShuffle pool3 [120]).map some ∧
      (∀ p ∈ pool3,
        (selectionCycle pool3 "ROUND_ROBIN_SHUFFLED" [120] 0 3).count (some p) = 1) ∧
      selectionCycle pool3 "ROUND_ROBIN_SHUFFLED" [120] 3 3 =
        selectionCycle pool3 "ROUND_ROBIN_SHUFFLED" [120] 0 3 :=
  C3_round_robin_complete_cycle pool3 [120] (by decide) (by decide)

/-! ## SHA-256 (Node `createHash('sha256').update(s).digest('hex')`)

The hash used by `generateShuffleSeed`, `generateFingerprint` and
`hashIp` is Node's SHA-256; we embed the FIPS 180-4 algorithm over byte
lists (the UTF-8 bytes of the JS string), producing the 256-bit
big-endian digest value, and hex-encode it exactly as `digest('hex')`
does (64 lowercase hex characters). -/

def M32 : Nat := 4294967296

/-- 32-bit right rotation. -/
def rotr32 (n x : Nat) : Nat := ((x >>> n) ||| (x <<< (32 - n))) % M32

/-- 32-bit bitwise complement (operands below `2^32`). -/
def bnot32 (x : Nat) : Nat := x ^^^ 4294967295

def shaCh (x y z : Nat) : Nat := (x &&& y) ^^^ (bnot32 x &&& z)

def shaMaj (x y z : Nat) : Nat := (x &&& y) ^^^ (x &&& z) ^^^ (y &&& z)

def bigSigma0 (x : Nat) : Nat := rotr32 2 x ^^^ rotr32 13 x ^^^ rotr32 22 x

def bigSigma1 (x : Nat) : Nat := rotr32 6 x ^^^ rotr32 11 x ^^^ rotr32 25 x

def smallSigma0 (x : Nat) : Nat := rotr32 7 x ^^^ rotr32 18 x ^^^ (x >>> 3)

def smallSigma1 (x : Nat) : Nat := rotr32 17 x ^^^ rotr32 19 x ^^^ (x >>> 10)

/-- The SHA-256 round constants. -/
def shaK : List Nat :=
  [1116352408, 1899447441, 3049323471, 3921009573, 961987163,
   1508970993, 2453635748, 2870763221, 3624381080, 310598401,
   607225278, 1426881987, 1925078388, 2162078206, 2614888103,
   3248222580, 3835390401, 4022224774, 264347078, 604807628,
   770255983, 1249150122, 1555081692, 1996064986, 2554220882,
   2821834349, 2952996808, 3210313671, 3336571891, 3584528711,
   113926993, 338241895, 666307205, 773529912, 1294757372,
   1396182291, 1695183700, 1986661051, 2177026350, 2456956037,
   2730485921, 2820302411, 3259730800, 3345764771, 3516065817,
   3600352804, 4094571909, 275423344, 430227734, 506948616,
   659060556, 883997877, 958139571, 1322822218, 1537002063,
   1747873779, 1955562222, 2024104815, 2227730452, 2361852424,
   2428436474, 2756734187, 3204031479, 3329325298]

/-- The SHA-256 initial hash value. -/
def shaH0 : List Nat :=
  [1779033703, 3144134277, 1013904242, 2773480762,
   1359893119, 2600822924, 528734635, 1541459225]

/-- Big-endian 8-byte encoding of the bit length. -/
def lenBytes8 (n : Nat) : List Nat :=
  (List.range 8).map (fun i => (n >>> (8 * (7 - i))) % 256)

/-- FIPS 180-4 message padding: append `0x80`, zeros to 56 mod 64, and the
64-bit big-endian bit length. -/
def padMessage (msg : List Nat) : List Nat :=
  let L := msg.length
  let z := (64 + 56 - (L + 1) % 64) % 64
  msg ++ [128] ++ List.replicate z 0 ++ lenBytes8 (8 * L)

/-- Big-endian 4-byte words from a byte list. -/
def toWords : List Nat → List Nat
  | b0 :: b1 :: b2 :: b3 :: rest =>
    (b0 * 16777216 + b1 * 65536 + b2 * 256 + b3) :: toWords rest
  | _ => []

/-- Extend the 16-word block to the 64-word message schedule. -/
def extendSchedule (w : List Nat) : Nat → List Nat
  | 0 => w
  | n + 1 =>
    let t := w.length
    let next := (smallSigma1 (w.getD (t - 2) 0) + w.getD (t - 7) 0 +
      smallSigma0 (w.getD (t - 15) 0) + w.getD (t - 16) 0) % M32
    extendSchedule (w ++ [next]) n

/-- The working-variable state `(a, b, c, d, e, f, g, h)`. -/
abbrev ShaState := Nat × Nat × Nat × Nat × Nat × Nat × Nat × Nat

/-- One compression round; `wk = (K_t, W_t)`. -/
def shaRound (st : ShaState) (kw : Nat × Nat) : ShaState :=
  let (a, b, c, d, e, f, g, h) := st
  let t1 := (h + bigSigma1 e + shaCh e f g + kw.1 + kw.2) % M32
  let t2 := (bigSigma0 a + shaMaj a b c) % M32
  ((t1 + t2) % M32, a, b, c, (d + t1) % M32, e, f, g)

/-- Add the final working variables back into the chaining value,
word-wise mod `2^32`. -/
def combineH (H : List Nat) (fin : ShaState) : List Nat :=
  [(H.getD 0 0 + fin.1) % M32, (H.getD 1 0 + fin.2.1) % M32,
   (H.getD 2 0 + fin.2.2.1) % M32, (H.getD 3 0 + fin.2.2.2.1) % M32,
   (H.getD 4 0 + fin.2.2.2.2.1) % M32, (H.getD 5 0 + fin.2.2.2.2.2.1) % M32,
   (H.getD 6 0 + fin.2.2.2.2.2.2.1) % M32,
   (H.getD 7 0 + fin.2.2.2.2.2.2.2) % M32]

/-- Compress one 16-word block into the chaining value. -/
def processBlock (H : List Nat) (block : List Nat) : List Nat :=
  combineH H ((shaK.zip (extendSchedule block 48)).foldl shaRound
    (H.getD 0 0, H.getD 1 0, H.getD 2 0, H.getD 3 0,
     H.getD 4 0, H.getD 5 0, H.getD 6 0, H.getD 7 0))

/-- Fold the padded byte stream, 64 bytes at a time.  Structural
recursion on a fuel that starts at the byte count (each step consumes 64
bytes, so the fuel never runs out). -/
def shaBlocksGo (H : List Nat) (bytes : List Nat) : Nat → List Nat
  | 0 => H
  | fuel + 1 =>
    match bytes with
    | [] => H
    | b :: rest =>
      shaBlocksGo (processBlock H (toWords ((b :: rest).take 64)))
        ((b :: rest).drop 64) fuel

def shaBlocks (H : List Nat) (bytes : List Nat) : List Nat :=
  shaBlocksGo H bytes bytes.length

/-- The digest as a single 256-bit big-endian value. -/
def wordsToNat (ws : List Nat) : Nat :=
  ws.foldl (fun acc w => acc * M32 + w) 0

/-- SHA-256 of a byte list, as a natural number below `2^256`. -/
def sha256 (msg : List Nat) : Nat :=
  wordsToNat (shaBlocks shaH0 (padMessage msg))

/-- Lowercase hex digit character code. -/
def hexDigitCode (n : Nat) : Nat := if n < 10 then 48 + n else 87 + n

/-- `digest('hex')`: the 64 lowercase hex character codes of the digest. -/
def natToHex64 (n : Nat) : Str :=
  (List.range 64).map (fun i => hexDigitCode ((n >>> (4 * (63 - i))) % 16))

/-- Hex digest as the code-unit string JS sees. -/
def sha256hex (msg : List Nat) : Str := natToHex64 (sha256 msg)

/-! ### Digest structure -/

theorem natToHex64_length (n : Nat) : (natToHex64 n).length = 64 := by
  simp [natToHex64]

/-- A lowercase hexadecimal character code: `'0'..'9'` or `'a'..'f'`. -/
def isLowerHexCode (c : Nat) : Prop := (48 ≤ c ∧ c ≤ 57) ∨ (97 ≤ c ∧ c ≤ 102)

theorem natToHex64_lower_hex (n : Nat) :
    ∀ c ∈ natToHex64 n, isLowerHexCode c := by
  intro c hc
  rw [natToHex64, List.mem_map] at hc
  obtain ⟨i, _, hi⟩ := hc
  have h16 : (n >>> (4 * (63 - i))) % 16 < 16 := Nat.mod_lt _ (by omega)
  rw [← hi]
  unfold hexDigitCode isLowerHexCode
  split <;> omega

theorem wordsToNat_lt (ws : List Nat) (hw : ∀ w ∈ ws, w < M32) :
    wordsToNat ws < M32 ^ ws.length := by
  have gen : ∀ (l : List Nat) (acc C : Nat), acc < C → (∀ w ∈ l, w < M32) →
      l.foldl (fun a w => a * M32 + w) acc < C * M32 ^ l.length := by
    intro l
    induction l with
    | nil => intro acc C hacc _; simpa using hacc
    | cons w t ih =>
      intro acc C hacc hl
      have hw' : w < M32 := hl w (by simp)
      have hstep : acc * M32 + w < C * M32 := by
        have h1 : acc + 1 ≤ C := hacc
        calc acc * M32 + w < acc * M32 + M32 := by omega
          _ = (acc + 1) * M32 := by ring
          _ ≤ C * M32 := Nat.mul_le_mul_right _ h1
      have := ih (acc * M32 + w) (C * M32) hstep (fun x hx => hl x (by simp [hx]))
      calc (w :: t).foldl (fun a w => a * M32 + w) acc
          = t.foldl (fun a w => a * M32 + w) (acc * M32 + w) := rfl
        _ < C * M32 * M32 ^ t.length := this
        _ = C * M32 ^ (t.length + 1) := by ring
  have := gen ws 0 1 (by omega) hw
  simpa using this

theorem combineH_length (H : List Nat) (fin : ShaState) :
    (combineH H fin).length = 8 := rfl

theorem combineH_bounds (H : List Nat) (fin : ShaState) :
    ∀ w ∈ combineH H fin, w < M32 := by
  intro w hw
  have hM : 0 < M32 := by norm_num [M32]
  rw [combineH] at hw
  simp only [List.mem_cons, List.not_mem_nil, or_false] at hw
  rcases hw with h | h | h | h | h | h | h | h <;>
    (subst h; exact Nat.mod_lt _ hM)

theorem processBlock_bounds (H block : List Nat) :
    (processBlock H block).length = 8 ∧ ∀ w ∈ processBlock H block, w < M32 :=
  ⟨combineH_length H _, combineH_bounds H _⟩

theorem shaBlocksGo_bounds (fuel : Nat) :
    ∀ (bytes H : List Nat), (H.length = 8 ∧ ∀ w ∈ H, w < M32) →
      (shaBlocksGo H bytes fuel).length = 8 ∧
        ∀ w ∈ shaBlocksGo H bytes fuel, w < M32 := by
  induction fuel with
  | zero => intro bytes H hH; simpa [shaBlocksGo] using hH
  | succ fuel ih =>
    intro bytes H hH
    match bytes with
    | [] => simpa [shaBlocksGo] using hH
    | b :: rest =>
      rw [shaBlocksGo]
      exact ih _ _ (processBlock_bounds H _)

theorem shaBlocks_bounds (bytes : List Nat) (H : List Nat)
    (hH : H.length = 8 ∧ ∀ w ∈ H, w < M32) :
    (shaBlocks H bytes).length = 8 ∧ ∀ w ∈ shaBlocks H bytes, w < M32 :=
  shaBlocksGo_bounds bytes.length bytes H hH

theorem sha256_lt (msg : List Nat) : sha256 msg < 2 ^ 256 := by
  unfold sha256
  have hH0 : shaH0.length = 8 ∧ ∀ w ∈ shaH0, w < M32 := by
    constructor
    · rfl
    · decide
  have hb := shaBlocks_bounds (padMessage msg) shaH0 hH0
  have := wordsToNat_lt (shaBlocks shaH0 (padMessage msg)) hb.2
  rw [hb.1] at this
  calc wordsToNat (shaBlocks shaH0 (padMessage msg)) < M32 ^ 8 := this
    _ = 2 ^ 256 := by norm_num [M32]

/-! ## Seed & fingerprint derivation (`src/lib/rotation.ts`) -/

/-- The string fed to the hash by `generateShuffleSeed`
(`${linkId}:${timeBucket}:${secret}`). -/
def shuffleSeedPreimage (linkId timeBucket secret : Str) : Str :=
  linkId ++ [58] ++ (timeBucket ++ [58] ++ secret)

/-- `generateShuffleSeed` from `src/lib/rotation.ts`. -/
def generateShuffleSeed (linkId timeBucket secret : Str) : Str :=
  sha256hex (shuffleSeedPreimage linkId timeBucket secret)

/-- The string fed to the hash by `generateFingerprint`
(`${ip}:${userAgent}:${linkId}:${salt}`). -/
def fingerprintPreimage (ip userAgent linkId salt : Str) : Str :=
  ip ++ [58] ++ (userAgent ++ [58] ++ (linkId ++ [58] ++ salt))

/-- `generateFingerprint` from `src/lib/rotation.ts`. -/
def generateFingerprint (ip userAgent linkId salt : Str) : Str :=
  sha256hex (fingerprintPreimage ip userAgent linkId salt)

/-- C9 counterexample: the claim as stated — that `generateFingerprint`
always yields a 64-character lowercase-hex string AND that changing
exactly one of the four inputs always changes the output — is false: a
function into the finite set of 256-bit digests cannot be injective on
the infinite set of ip strings, so some two distinct ips (with the other
three inputs fixed) share an output. -/
theorem C9_fingerprint_claim_counterexample :
    ¬ (∀ ip ua linkId salt : Str,
        ((generateFingerprint ip ua linkId salt).length = 64 ∧
          ∀ c ∈ generateFingerprint ip ua linkId salt, isLowerHexCode c) ∧
        (∀ ip2, ip ≠ ip2 →
          generateFingerprint ip ua linkId salt ≠
            generateFingerprint ip2 ua linkId salt) ∧
        (∀ ua2, ua ≠ ua2 →
          generateFingerprint ip ua linkId salt ≠
            generateFingerprint ip ua2 linkId salt) ∧
        (∀ linkId2, linkId ≠ linkId2 →
          generateFingerprint ip ua linkId salt ≠
            generateFingerprint ip ua linkId2 salt) ∧
        (∀ salt2, salt ≠ salt2 →
          generateFingerprint ip ua linkId salt ≠
            generateFingerprint ip ua linkId salt2)) := by
  intro h
  obtain ⟨x, y, hxy, heq⟩ :=
    Finite.exists_ne_map_eq_of_infinite
      (fun ip : Str =>
        (⟨sha256 (fingerprintPreimage ip [] [] []), sha256_lt _⟩ : Fin (2 ^ 256)))
  have hfp : generateFingerprint x [] [] [] = generateFingerprint y [] [] [] := by
    unfold generateFingerprint sha256hex
    exact congrArg natToHex64 (congrArg Fin.val heq)
  exact (h x [] [] []).2.1 y hxy hfp

/-- C9 (amended): `generateFingerprint` always returns a 64-character
lowercase hexadecimal string, and changing exactly one of the four
inputs while holding the other three fixed always changes the string
fed to the hash (so outputs can only coincide through a SHA-256
collision). -/
theorem C9_fingerprint_hex_and_preimage_sensitivity (ip ua linkId salt : Str) :
    (generateFingerprint ip ua linkId salt).length = 64 ∧
    (∀ c ∈ generateFingerprint ip ua linkId salt, isLowerHexCode c) ∧
    (∀ ip2, ip ≠ ip2 →
      fingerprintPreimage ip ua linkId salt ≠ fingerprintPreimage ip2 ua linkId salt) ∧
    (∀ ua2, ua ≠ ua2 →
      fingerprintPreimage ip ua linkId salt ≠ fingerprintPreimage ip ua2 linkId salt) ∧
    (∀ linkId2, linkId ≠ linkId2 →
      fingerprintPreimage ip ua linkId salt ≠ fingerprintPreimage ip ua linkId2 salt) ∧
    (∀ salt2, salt ≠ salt2 →
      fingerprintPreimage ip ua linkId salt ≠ fingerprintPreimage ip ua linkId salt2) := by
  refine ⟨natToHex64_length _, natToHex64_lower_hex _, ?_, ?_, ?_, ?_⟩
  · intro ip2 hne heq
    apply hne
    exact List.append_cancel_right (List.append_cancel_right heq)
  · intro ua2 hne heq
    apply hne
    have h1 := List.append_cancel_left heq
    exact List.append_cancel_right (List.append_cancel_right h1)
  · intro linkId2 hne heq
    apply hne
    have h1 := List.append_cancel_left (List.append_cancel_left heq)
    exact List.append_cancel_right (List.append_cancel_right h1)
  · intro salt2 hne heq
    apply hne
    exact List.append_cancel_left
      (List.append_cancel_left (List.append_cancel_left heq))

theorem C9_fingerprint_hex_and_preimage_sensitivity_witness :
    (generateFingerprint [49] [77] [108] [115]).length = 64 ∧
      fingerprintPreimage [49] [77] [108] [115] ≠
        fingerprintPreimage [50] [77] [108] [115] :=
  ⟨(C9_fingerprint_hex_and_preimage_sensitivity [49] [77] [108] [115]).1,
    (C9_fingerprint_hex_and_preimage_sensitivity [49] [77] [108] [115]).2.2.1 [50]
      (by decide)⟩

/-! ## Storage collaborators (`src/db/phones.ts`)

The Prisma-backed store is embedded as an explicit state: the
`link_phones` rows (kept in `createdAt` order, the order both queries
use), the `link_rotation` counters, and the `fingerprint_map` rows.
`Date.now()` is a per-invocation parameter (`Env.now`). -/

/-- A `link_phones` row. -/
structure LinkPhone where
  id : Str
  linkId : Str
  phoneNumber : Str
  status : String
  weight : Int
deriving DecidableEq, Repr

/-- A `fingerprint_map` row. -/
structure StickyEntry where
  linkId : Str
  fingerprintHash : Str
  phoneId : Str
  expiresAt : Int
deriving DecidableEq, Repr

structure DbState where
  phones : List LinkPhone
  counters : List (Str × Int)
  sticky : List StickyEntry
deriving DecidableEq, Repr

/-- `getActivePhonesForLink`: active rows of the campaign, in stored order. -/
def getActivePhonesForLink (db : DbState) (linkId : Str) : List LinkPhone :=
  db.phones.filter (fun p => p.linkId == linkId && p.status == "ACTIVE")

/-- `incrementRotationCounter`: atomic upsert returning the new value
(`INSERT … VALUES (linkId, 1) ON CONFLICT DO UPDATE SET counter = counter + 1
RETURNING counter`). -/
def incrementRotationCounter (db : DbState) (linkId : Str) : Int × DbState :=
  match db.counters.find? (fun e => e.1 == linkId) with
  | some e =>
    (e.2 + 1,
      { db with counters :=
          db.counters.map (fun e2 => if e2.1 == linkId then (e2.1, e.2 + 1) else e2) })
  | none => (1, { db with counters := db.counters ++ [(linkId, 1)] })

/-- `getStickyMapping`: first row for the key with `expiresAt > now`. -/
def getStickyMapping (db : DbState) (linkId fp : Str) (now : Int) :
    Option StickyEntry :=
  db.sticky.find? (fun e =>
    e.linkId == linkId && e.fingerprintHash == fp && decide (now < e.expiresAt))

/-- `setStickyMapping`: upsert keyed by `(linkId, fingerprintHash)` with
`expiresAt = Date.now() + ttlHours * 60 * 60 * 1000`. -/
def setStickyMapping (db : DbState) (linkId fp phoneId : Str) (ttlHours : Int)
    (now : Int) : DbState :=
  let expiresAt := now + ttlHours * 3600000
  if db.sticky.any (fun e => e.linkId == linkId && e.fingerprintHash == fp) then
    { db with sticky :=
        db.sticky.map (fun e =>
          if e.linkId == linkId && e.fingerprintHash == fp then
            { e with phoneId := phoneId, expiresAt := expiresAt }
          else e) }
  else
    { db with sticky := db.sticky ++ [⟨linkId, fp, phoneId, expiresAt⟩] }

/-- `isPhoneActive`: `phone?.status === 'ACTIVE'`. -/
def isPhoneActive (db : DbState) (phoneId : Str) : Bool :=
  match db.phones.find? (fun p => p.id == phoneId) with
  | some p => p.status == "ACTIVE"
  | none => false

/-- `cleanupExpiredMappings`: delete rows with `expiresAt < now`. -/
def cleanupExpiredMappings (db : DbState) (now : Int) : DbState :=
  { db with sticky := db.sticky.filter (fun e => !(decide (e.expiresAt < now))) }

/-! ## The selection engine (`src/services/phoneSelector.ts`)

Each storage call crosses an async boundary and can reject; the
environment carries one error-injection flag per collaborator.  An
injected failure models the promise rejecting; `Except.error` models the
exception propagating out of `selectPhoneForClick`. -/

structure Failures where
  getPhones : Bool
  getSticky : Bool
  isActive : Bool
  increment : Bool
  setSticky : Bool
  cleanup : Bool
deriving DecidableEq, Repr

def noFailures : Failures := ⟨false, false, false, false, false, false⟩

structure Env where
  db : DbState
  now : Int
  timeBucket : Str
  rotationSeedSecret : Str
  stickyFingerprintSalt : Str
  fail : Failures
deriving DecidableEq, Repr

/-- The campaign fields the engine reads from the `Link` record. -/
structure Link where
  id : Str
  defaultPhone : Str
  rotationMode : String
  stickyEnabled : Bool
  stickyTtlHours : Int
deriving DecidableEq, Repr

structure PhoneSelectionResult where
  phone : Str
  phoneId : Option Str
  source : String
deriving DecidableEq, Repr

def getActivePhonesE (env : Env) (linkId : Str) : Except Unit (List LinkPhone) :=
  if env.fail.getPhones then .error ()
  else .ok (getActivePhonesForLink env.db linkId)

def getStickyMappingE (env : Env) (linkId fp : Str) :
    Except Unit (Option StickyEntry) :=
  if env.fail.getSticky then .error ()
  else .ok (getStickyMapping env.db linkId fp env.now)

def isPhoneActiveE (env : Env) (phoneId : Str) : Except Unit Bool :=
  if env.fail.isActive then .error () else .ok (isPhoneActive env.db phoneId)

def incrementRotationCounterE (env : Env) (linkId : Str) :
    Except Unit (Int × DbState) :=
  if env.fail.increment then .error ()
  else .ok (incrementRotationCounter env.db linkId)

/-- The `'stable'` time-bucket token. -/
def stableToken : Str := [115, 116, 97, 98, 108, 101]

/-- The sticky-lookup step (`phoneSelector.ts` lines 70–90): look up an
unexpired mapping, re-check the phone's status, and require it to be in
the current eligible pool; `some` result short-circuits the invocation,
`none` falls through to rotation. -/
def stickyProbe (env : Env) (link : Link) (activePhones : List LinkPhone)
    (fingerprintHash : Str) : Except Unit (Option PhoneSelectionResult) :=
  match getStickyMappingE env link.id fingerprintHash with
  | .error e => .error e
  | .ok none => .ok none
  | .ok (some sm) =>
    match isPhoneActiveE env sm.phoneId with
    | .error e => .error e
    | .ok false => .ok none
    | .ok true =>
      match activePhones.find? (fun p => p.id == sm.phoneId) with
      | some stickyPhone =>
        .ok (some ⟨stickyPhone.phoneNumber, some stickyPhone.id, "sticky"⟩)
      | none => .ok none

/-- The rotation step (`phoneSelector.ts` lines 92–157): atomic counter
increment, per-mode seed derivation, pool selection, try/catch-guarded
sticky write-back, and the probabilistic cleanup sweep (whose `.catch`
swallows its failure). -/
def rotationStep (env : Env) (link : Link) (activePhones : List LinkPhone)
    (fingerprintHash : Str) (cleanupRoll : Bool) :
    Except Unit (PhoneSelectionResult × DbState) :=
  match incrementRotationCounterE env link.id with
  | .error e => .error e
  | .ok cd =>
    let shuffleSeed :=
      if link.rotationMode = "RANDOM_NO_REPEAT_EPOCH" then
        generateShuffleSeed link.id env.timeBucket env.rotationSeedSecret
      else
        generateShuffleSeed link.id stableToken env.rotationSeedSecret
    let phoneEntries :=
      activePhones.map (fun p => PhoneEntry.mk p.id p.phoneNumber p.weight)
    match selectPhone phoneEntries cd.1 link.rotationMode shuffleSeed with
    | none => .ok (⟨link.defaultPhone, none, "fallback"⟩, cd.2)
    | some selectedPhone =>
      let db2 :=
        if link.stickyEnabled then
          if env.fail.setSticky then cd.2
          else setStickyMapping cd.2 link.id fingerprintHash selectedPhone.id
            link.stickyTtlHours env.now
        else cd.2
      let db3 :=
        if cleanupRoll then
          if env.fail.cleanup then db2 else cleanupExpiredMappings db2 env.now
        else db2
      .ok (⟨selectedPhone.phoneNumber, some selectedPhone.id, "rotation"⟩, db3)

/-- `selectPhoneForClick` from `src/services/phoneSelector.ts`.
`cleanupRoll` is the outcome of `Math.random() < 0.01`; the sticky
write-back and the cleanup sweep swallow their own failures (the
source's `try/catch` and `.catch`), every other storage rejection
propagates.  The returned state is the store after the invocation's
writes. -/
def selectPhoneForClick (env : Env) (link : Link) (ip userAgent : Str)
    (isBot : Bool) (cleanupRoll : Bool) :
    Except Unit (PhoneSelectionResult × DbState) :=
  if isBot then .ok (⟨link.defaultPhone, none, "default"⟩, env.db)
  else
    match getActivePhonesE env link.id with
    | .error e => .error e
    | .ok activePhones =>
      if activePhones.length = 0 then
        .ok (⟨link.defaultPhone, none, "default"⟩, env.db)
      else
        let fingerprintHash :=
          generateFingerprint ip userAgent link.id env.stickyFingerprintSalt
        match
          (if link.stickyEnabled then
            stickyProbe env link activePhones fingerprintHash
          else .ok none) with
        | .error e => .error e
        | .ok (some res) => .ok (res, env.db)
        | .ok none =>
          rotationStep env link activePhones fingerprintHash cleanupRoll

/-- The caller's guard in `src/routes/redirect.ts`: the route wraps
`selectPhoneForClick` in `try/catch` and falls back to
`link.defaultPhone` with a `null` phone id when it throws. -/
def callerPhoneChoice (env : Env) (link : Link) (ip userAgent : Str)
    (isBot : Bool) (cleanupRoll : Bool) : Str × Option Str :=
  match selectPhoneForClick env link ip userAgent isBot cleanupRoll with
  | .ok r => (r.1.phone, r.1.phoneId)
  | .error _ => (link.defaultPhone, none)

/-! ### C6: bot short-circuit -/

/-- C6: with the bot flag set, `selectPhoneForClick` returns the
campaign's default phone, a `null` phone id and provenance `default`,
with the store untouched — for every environment, including ones where
every collaborator would fail, which witnesses that no counter
increment and no sticky read or write is performed. -/
theorem C6_bot_returns_default (env : Env) (link : Link) (ip userAgent : Str)
    (cleanupRoll : Bool) :
    selectPhoneForClick env link ip userAgent true cleanupRoll =
      .ok (⟨link.defaultPhone, none, "default"⟩, env.db) := rfl

/-! ### C1: behavior when the counter increment rejects -/

def phC1 : LinkPhone := ⟨[97], [76], [43, 49], "ACTIVE", 1⟩

def envC1 : Env :=
  ⟨⟨[phC1], [], []⟩, 0, [100], [114], [115],
    { noFailures with increment := true }⟩

def linkC1 : Link := ⟨[76], [43, 57], "ROUND_ROBIN_SHUFFLED", false, 24⟩

/-- C1 counterexample: with a non-bot click, a non-empty eligible pool
and a rejecting `incrementRotationCounter`, `selectPhoneForClick` does
NOT return normally with provenance `fallback` — the rejection
propagates out of the engine as an error. -/
theorem C1_counterexample :
    selectPhoneForClick envC1 linkC1 [105] [117] false false = .error () ∧
      ∀ r, selectPhoneForClick envC1 linkC1 [105] [117] false false ≠ .ok r := by
  have h1 : selectPhoneForClick envC1 linkC1 [105] [117] false false = .error () := rfl
  refine ⟨h1, fun r h => ?_⟩
  rw [h1] at h
  exact Except.noConfusion h

/-- C1 (amended): when `incrementRotationCounter` rejects on a non-bot
click with a non-empty pool (and the sticky step does not short-circuit),
the error propagates out of `selectPhoneForClick`; it is the route
handler's `try/catch` that then serves the campaign's default phone with
a `null` phone id — no `fallback` provenance is produced. -/
theorem C1_increment_failure_propagates_and_caller_falls_back
    (env : Env) (link : Link) (ip userAgent : Str) (cleanupRoll : Bool)
    (hinc : env.fail.increment = true)
    (hgp : env.fail.getPhones = false)
    (hne : getActivePhonesForLink env.db link.id ≠ [])
    (hsticky : link.stickyEnabled = false ∨
      (env.fail.getSticky = false ∧
        getStickyMapping env.db link.id
          (generateFingerprint ip userAgent link.id env.stickyFingerprintSalt)
          env.now = none)) :
    selectPhoneForClick env link ip userAgent false cleanupRoll = .error () ∧
      callerPhoneChoice env link ip userAgent false cleanupRoll =
        (link.defaultPhone, none) := by
  have hlen : ¬ ((getActivePhonesForLink env.db link.id).length = 0) := by
    intro h0
    exact hne (List.length_eq_zero.mp h0)
  have herr : selectPhoneForClick env link ip userAgent false cleanupRoll = .error () := by
    unfold selectPhoneForClick
    rcases hsticky with hse | ⟨hgs, hsm⟩
    · simp [getActivePhonesE, hgp, hlen, hse, rotationStep,
        incrementRotationCounterE, hinc]
    · by_cases hse : link.stickyEnabled <;>
        simp [getActivePhonesE, hgp, hlen, hse, stickyProbe, getStickyMappingE,
          hgs, hsm, rotationStep, incrementRotationCounterE, hinc]
  refine ⟨herr, ?_⟩
  unfold callerPhoneChoice
  rw [herr]

theorem C1_increment_failure_propagates_and_caller_falls_back_witness :
    selectPhoneForClick envC1 linkC1 [105] [117] false false = .error () ∧
      callerPhoneChoice envC1 linkC1 [105] [117] false false =
        (linkC1.defaultPhone, none) :=
  C1_increment_failure_propagates_and_caller_falls_back envC1 linkC1 [105] [117]
    false rfl rfl (by decide) (Or.inl rfl)

/-! ### C7: sticky hit is read-only -/

/-- C7: when sticky mode is enabled and an unexpired mapping exists whose
phone is still active and still in the eligible pool, the invocation
returns that phone with provenance `sticky` and leaves the store exactly
as it was: no counter increment (the increment-failure flag is
unconstrained, so the counter collaborator is never consulted) and no
sticky write. -/
theorem run_sticky_hit
    (env : Env) (link : Link) (ip userAgent : Str) (cleanupRoll : Bool)
    (sm : StickyEntry) (stickyPhone : LinkPhone)
    (hse : link.stickyEnabled = true)
    (hgp : env.fail.getPhones = false)
    (hgs : env.fail.getSticky = false)
    (hia : env.fail.isActive = false)
    (hsm : getStickyMapping env.db link.id
      (generateFingerprint ip userAgent link.id env.stickyFingerprintSalt)
      env.now = some sm)
    (hact : isPhoneActive env.db sm.phoneId = true)
    (hfind : (getActivePhonesForLink env.db link.id).find?
      (fun p => p.id == sm.phoneId) = some stickyPhone) :
    selectPhoneForClick env link ip userAgent false cleanupRoll =
      .ok (⟨stickyPhone.phoneNumber, some stickyPhone.id, "sticky"⟩, env.db) := by
  have hlen : ¬ ((getActivePhonesForLink env.db link.id).length = 0) := by
    intro h0
    rw [List.length_eq_zero.mp h0] at hfind
    exact Option.noConfusion hfind
  unfold selectPhoneForClick
  simp [getActivePhonesE, hgp, hlen, hse, stickyProbe, getStickyMappingE, hgs,
    hsm, isPhoneActiveE, hia, hact, hfind]

theorem C7_sticky_hit_returns_mapped_phone_without_writes
    (env : Env) (link : Link) (ip userAgent : Str) (cleanupRoll : Bool)
    (sm : StickyEntry) (stickyPhone : LinkPhone)
    (hse : link.stickyEnabled = true)
    (hgp : env.fail.getPhones = false)
    (hgs : env.fail.getSticky = false)
    (hia : env.fail.isActive = false)
    (hsm : getStickyMapping env.db link.id
      (generateFingerprint ip userAgent link.id env.stickyFingerprintSalt)
      env.now = some sm)
    (hact : isPhoneActive env.db sm.phoneId = true)
    (hfind : (getActivePhonesForLink env.db link.id).find?
      (fun p => p.id == sm.phoneId) = some stickyPhone) :
    selectPhoneForClick env link ip userAgent false cleanupRoll =
      .ok (⟨stickyPhone.phoneNumber, some stickyPhone.id, "sticky"⟩, env.db) :=
  run_sticky_hit env link ip userAgent cleanupRoll sm stickyPhone hse hgp hgs
    hia hsm hact hfind

def fpW : Str := generateFingerprint [105] [117] [76] [115]

def phW2 : LinkPhone := ⟨[98], [76], [43, 50], "ACTIVE", 1⟩

def envC7 : Env :=
  ⟨⟨[phC1, phW2], [([76], 3)], [⟨[76], fpW, [98], 999999⟩]⟩, 1000, [100], [114],
    [115], { noFailures with increment := true }⟩

def linkC7 : Link := ⟨[76], [43, 57], "ROUND_ROBIN_SHUFFLED", true, 24⟩

set_option maxRecDepth 40000 in
theorem C7_sticky_hit_returns_mapped_phone_without_writes_witness :
    selectPhoneForClick envC7 linkC7 [105] [117] false false =
      .ok (⟨phW2.phoneNumber, some phW2.id, "sticky"⟩, envC7.db) :=
  C7_sticky_hit_returns_mapped_phone_without_writes envC7 linkC7 [105] [117]
    false ⟨[76], fpW, [98], 999999⟩ phW2 rfl rfl rfl rfl (by exact rfl) (by exact rfl)
    (by exact rfl)

/-! ### C8: sticky write-back failure is swallowed -/

/-- C8: when the sticky write-back rejects after the rotation decision
has been made, `selectPhoneForClick` still returns the already-chosen
phone with its id and provenance `rotation` — identical to the decision
of the same invocation with a succeeding write-back — and no error
reaches the caller; only the stored sticky state differs. -/
theorem C8_sticky_writeback_failure_keeps_decision
    (env : Env) (link : Link) (ip userAgent : Str) (sel : PhoneEntry)
    (hse : link.stickyEnabled = true)
    (hgp : env.fail.getPhones = false)
    (hgs : env.fail.getSticky = false)
    (hinc : env.fail.increment = false)
    (hset : env.fail.setSticky = true)
    (hne : getActivePhonesForLink env.db link.id ≠ [])
    (hsm : getStickyMapping env.db link.id
      (generateFingerprint ip userAgent link.id env.stickyFingerprintSalt)
      env.now = none)
    (hsel : selectPhone
      ((getActivePhonesForLink env.db link.id).map
        (fun p => PhoneEntry.mk p.id p.phoneNumber p.weight))
      (incrementRotationCounter env.db link.id).1 link.rotationMode
      (if link.rotationMode = "RANDOM_NO_REPEAT_EPOCH" then
        generateShuffleSeed link.id env.timeBucket env.rotationSeedSecret
      else
        generateShuffleSeed link.id stableToken env.rotationSeedSecret) =
      some sel) :
    selectPhoneForClick env link ip userAgent false false =
        .ok (⟨sel.phoneNumber, some sel.id, "rotation"⟩,
          (incrementRotationCounter env.db link.id).2) ∧
      selectPhoneForClick
          { env with fail := { env.fail with setSticky := false } } link ip
          userAgent false false =
        .ok (⟨sel.phoneNumber, some sel.id, "rotation"⟩,
          setStickyMapping (incrementRotationCounter env.db link.id).2 link.id
            (generateFingerprint ip userAgent link.id env.stickyFingerprintSalt)
            sel.id link.stickyTtlHours env.now) := by
  have hlen : ¬ ((getActivePhonesForLink env.db link.id).length = 0) := by
    intro h0
    exact hne (List.length_eq_zero.mp h0)
  constructor
  · unfold selectPhoneForClick
    simp [getActivePhonesE, hgp, hlen, hse, stickyProbe, getStickyMappingE, hgs,
      hsm, rotationStep, incrementRotationCounterE, hinc, hsel, hset]
  · unfold selectPhoneForClick
    simp [getActivePhonesE, hgp, hlen, hse, stickyProbe, getStickyMappingE, hgs,
      hsm, rotationStep, incrementRotationCounterE, hinc, hsel]

def envC8 : Env :=
  ⟨⟨[phC1, phW2], [], []⟩, 1000, [100], [114], [115],
    { noFailures with setSticky := true }⟩

def selC8 : PhoneEntry := ⟨[98], [43, 50], 1⟩

set_option maxRecDepth 80000 in
theorem C8_sticky_writeback_failure_keeps_decision_witness :
    selectPhoneForClick envC8 linkC7 [105] [117] false false =
        .ok (⟨selC8.phoneNumber, some selC8.id, "rotation"⟩,
          (incrementRotationCounter envC8.db linkC7.id).2) ∧
      selectPhoneForClick
          { envC8 with fail := { envC8.fail with setSticky := false } } linkC7
          [105] [117] false false =
        .ok (⟨selC8.phoneNumber, some selC8.id, "rotation"⟩,
          setStickyMapping (incrementRotationCounter envC8.db linkC7.id).2
            linkC7.id
            (generateFingerprint [105] [117] linkC7.id
              envC8.stickyFingerprintSalt)
            selC8.id linkC7.stickyTtlHours envC8.now) :=
  C8_sticky_writeback_failure_keeps_decision envC8 linkC7 [105] [117] selC8
    rfl rfl rfl rfl rfl (by decide) (by exact rfl) (by exact rfl)

/-! ### C5: sticky mapping lifecycle -/

theorem find_upsert_map (l fp pid : Str) (exp now2 : Int) (hlt : now2 < exp) :
    ∀ (s : List StickyEntry),
      s.any (fun e => e.linkId == l && e.fingerprintHash == fp) = true →
      (s.map (fun e =>
        if e.linkId == l && e.fingerprintHash == fp then
          { e with phoneId := pid, expiresAt := exp }
        else e)).find?
        (fun e => e.linkId == l && e.fingerprintHash == fp &&
          decide (now2 < e.expiresAt)) = some ⟨l, fp, pid, exp⟩ := by
  intro s
  induction s with
  | nil => intro h; cases h
  | cons e t ih =>
    intro hany
    by_cases hkey : (e.linkId == l && e.fingerprintHash == fp) = true
    · obtain ⟨h1, h2⟩ := Bool.and_eq_true_iff.mp hkey
      have hl : e.linkId = l := eq_of_beq h1
      have hf : e.fingerprintHash = fp := eq_of_beq h2
      simp [hkey, hl, hf, hlt]
    · have hkeyF : (e.linkId == l && e.fingerprintHash == fp) = false :=
        Bool.eq_false_iff.mpr hkey
      have hany' : t.any
          (fun e => e.linkId == l && e.fingerprintHash == fp) = true := by
        simpa [List.any_cons, hkeyF] using hany
      rw [List.map_cons, if_neg (by simp [hkeyF])]
      rw [List.find?_cons_of_neg _ (by simp [hkeyF])]
      exact ih hany'

theorem find_upsert_append (l fp pid : Str) (exp now2 : Int) (hlt : now2 < exp) :
    ∀ (s : List StickyEntry),
      s.any (fun e => e.linkId == l && e.fingerprintHash == fp) = false →
      (s ++ [(⟨l, fp, pid, exp⟩ : StickyEntry)]).find?
        (fun e => e.linkId == l && e.fingerprintHash == fp &&
          decide (now2 < e.expiresAt)) = some ⟨l, fp, pid, exp⟩ := by
  intro s
  induction s with
  | nil => simp [hlt]
  | cons e t ih =>
    intro hany
    simp only [List.any_cons, Bool.or_eq_false_iff] at hany
    obtain ⟨hkeyF, hany'⟩ := hany
    rw [List.cons_append]
    rw [List.find?_cons_of_neg _ (by simp [hkeyF])]
    exact ih hany'

/-- Read-after-write for the sticky upsert: right after
`setStickyMapping`, an unexpired lookup of the same key returns exactly
the written binding. -/
theorem getSticky_after_set (db : DbState) (l fp pid : Str) (ttl now now2 : Int)
    (hlt : now2 < now + ttl * 3600000) :
    getStickyMapping (setStickyMapping db l fp pid ttl now) l fp now2 =
      some ⟨l, fp, pid, now + ttl * 3600000⟩ := by
  unfold getStickyMapping setStickyMapping
  by_cases hany : db.sticky.any
      (fun e => e.linkId == l && e.fingerprintHash == fp) = true
  · rw [if_pos hany]
    exact find_upsert_map l fp pid _ now2 hlt db.sticky hany
  · rw [if_neg hany]
    exact find_upsert_append l fp pid _ now2 hlt db.sticky
      (Bool.eq_false_iff.mpr hany)

/-- A stale sticky hit (mapped phone inactive or absent from the pool)
falls through to rotation and upserts the mapping with the newly chosen
phone. -/
theorem run_stale_rotation
    (env : Env) (link : Link) (ip userAgent : Str)
    (sm : StickyEntry) (sel : PhoneEntry)
    (hse : link.stickyEnabled = true)
    (hgp : env.fail.getPhones = false)
    (hgs : env.fail.getSticky = false)
    (hia : env.fail.isActive = false)
    (hinc : env.fail.increment = false)
    (hset : env.fail.setSticky = false)
    (hne : getActivePhonesForLink env.db link.id ≠ [])
    (hsm : getStickyMapping env.db link.id
      (generateFingerprint ip userAgent link.id env.stickyFingerprintSalt)
      env.now = some sm)
    (hstale : isPhoneActive env.db sm.phoneId = false ∨
      (getActivePhonesForLink env.db link.id).find?
        (fun p => p.id == sm.phoneId) = none)
    (hsel : selectPhone
      ((getActivePhonesForLink env.db link.id).map
        (fun p => PhoneEntry.mk p.id p.phoneNumber p.weight))
      (incrementRotationCounter env.db link.id).1 link.rotationMode
      (if link.rotationMode = "RANDOM_NO_REPEAT_EPOCH" then
        generateShuffleSeed link.id env.timeBucket env.rotationSeedSecret
      else
        generateShuffleSeed link.id stableToken env.rotationSeedSecret) =
      some sel) :
    selectPhoneForClick env link ip userAgent false false =
      .ok (⟨sel.phoneNumber, some sel.id, "rotation"⟩,
        setStickyMapping (incrementRotationCounter env.db link.id).2 link.id
          (generateFingerprint ip userAgent link.id env.stickyFingerprintSalt)
          sel.id link.stickyTtlHours env.now) := by
  have hlen : ¬ ((getActivePhonesForLink env.db link.id).length = 0) := by
    intro h0
    exact hne (List.length_eq_zero.mp h0)
  unfold selectPhoneForClick
  rcases hstale with hina | hnf
  · simp [getActivePhonesE, hgp, hlen, hse, stickyProbe, getStickyMappingE, hgs,
      hsm, isPhoneActiveE, hia, hina, rotationStep, incrementRotationCounterE,
      hinc, hsel, hset]
  · by_cases hact : isPhoneActive env.db sm.phoneId <;>
      simp [getActivePhonesE, hgp, hlen, hse, stickyProbe, getStickyMappingE,
        hgs, hsm, isPhoneActiveE, hia, hact, hnf, rotationStep,
        incrementRotationCounterE, hinc, hsel, hset]

/-- C5: with sticky mode enabled, (i) while an unexpired mapping's phone
is still active and in the eligible pool, the invocation returns exactly
that phone with provenance `sticky` and writes nothing; (ii) when the
mapped phone is no longer active or no longer in the pool, the stale
mapping is treated as a miss: the invocation proceeds through rotation,
returns the newly chosen phone without error, and upserts — not deletes —
the mapping, which afterwards reads back as the new phone until its new
expiry. -/
theorem C5_sticky_mapping_lifecycle :
    (∀ (env : Env) (link : Link) (ip userAgent : Str) (cleanupRoll : Bool)
        (sm : StickyEntry) (stickyPhone : LinkPhone),
      link.stickyEnabled = true → env.fail.getPhones = false →
      env.fail.getSticky = false → env.fail.isActive = false →
      getStickyMapping env.db link.id
        (generateFingerprint ip userAgent link.id env.stickyFingerprintSalt)
        env.now = some sm →
      isPhoneActive env.db sm.phoneId = true →
      (getActivePhonesForLink env.db link.id).find?
        (fun p => p.id == sm.phoneId) = some stickyPhone →
      selectPhoneForClick env link ip userAgent false cleanupRoll =
        .ok (⟨stickyPhone.phoneNumber, some stickyPhone.id, "sticky"⟩, env.db)) ∧
    (∀ (env : Env) (link : Link) (ip userAgent : Str)
        (sm : StickyEntry) (sel : PhoneEntry),
      link.stickyEnabled = true → env.fail.getPhones = false →
      env.fail.getSticky = false → env.fail.isActive = false →
      env.fail.increment = false → env.fail.setSticky = false →
      getActivePhonesForLink env.db link.id ≠ [] →
      getStickyMapping env.db link.id
        (generateFingerprint ip userAgent link.id env.stickyFingerprintSalt)
        env.now = some sm →
      (isPhoneActive env.db sm.phoneId = false ∨
        (getActivePhonesForLink env.db link.id).find?
          (fun p => p.id == sm.phoneId) = none) →
      selectPhone
        ((getActivePhonesForLink env.db link.id).map
          (fun p => PhoneEntry.mk p.id p.phoneNumber p.weight))
        (incrementRotationCounter env.db link.id).1 link.rotationMode
        (if link.rotationMode = "RANDOM_NO_REPEAT_EPOCH" then
          generateShuffleSeed link.id env.timeBucket env.rotationSeedSecret
        else
          generateShuffleSeed link.id stableToken env.rotationSeedSecret) =
        some sel →
      selectPhoneForClick env link ip userAgent false false =
          .ok (⟨sel.phoneNumber, some sel.id, "rotation"⟩,
            setStickyMapping (incrementRotationCounter env.db link.id).2 link.id
              (generateFingerprint ip userAgent link.id env.stickyFingerprintSalt)
              sel.id link.stickyTtlHours env.now) ∧
        ∀ now2 : Int, now2 < env.now + link.stickyTtlHours * 3600000 →
          getStickyMapping
              (setStickyMapping (incrementRotationCounter env.db link.id).2
                link.id
                (generateFingerprint ip userAgent link.id
                  env.stickyFingerprintSalt)
                sel.id link.stickyTtlHours env.now)
              link.id
              (generateFingerprint ip userAgent link.id env.stickyFingerprintSalt)
              now2 =
            some ⟨link.id,
              generateFingerprint ip userAgent link.id env.stickyFingerprintSalt,
              sel.id, env.now + link.stickyTtlHours * 3600000⟩) := by
  constructor
  · intro env link ip userAgent cleanupRoll sm stickyPhone hse hgp hgs hia hsm
      hact hfind
    exact run_sticky_hit env link ip userAgent cleanupRoll sm stickyPhone hse
      hgp hgs hia hsm hact hfind
  · intro env link ip userAgent sm sel hse hgp hgs hia hinc hset hne hsm hstale
      hsel
    refine ⟨run_stale_rotation env link ip userAgent sm sel hse hgp hgs hia hinc
      hset hne hsm hstale hsel, fun now2 h2 => ?_⟩
    exact getSticky_after_set _ _ _ _ _ _ _ h2

def phC5Paused : LinkPhone := ⟨[99], [76], [43, 51], "PAUSED", 1⟩

def envC5 : Env :=
  ⟨⟨[phC1, phC5Paused], [], [⟨[76], fpW, [99], 999999999⟩]⟩, 1000, [100], [114],
    [115], noFailures⟩

def selC5 : PhoneEntry := ⟨[97], [43, 49], 1⟩

set_option maxRecDepth 80000 in
theorem C5_sticky_mapping_lifecycle_witness :
    selectPhoneForClick envC7 linkC7 [105] [117] false false =
        .ok (⟨phW2.phoneNumber, some phW2.id, "sticky"⟩, envC7.db) ∧
      selectPhoneForClick envC5 linkC7 [105] [117] false false =
        .ok (⟨selC5.phoneNumber, some selC5.id, "rotation"⟩,
          setStickyMapping (incrementRotationCounter envC5.db linkC7.id).2
            linkC7.id
            (generateFingerprint [105] [117] linkC7.id
              envC5.stickyFingerprintSalt)
            selC5.id linkC7.stickyTtlHours envC5.now) ∧
      getStickyMapping
          (setStickyMapping (incrementRotationCounter envC5.db linkC7.id).2
            linkC7.id
            (generateFingerprint [105] [117] linkC7.id
              envC5.stickyFingerprintSalt)
            selC5.id linkC7.stickyTtlHours envC5.now)
          linkC7.id
          (generateFingerprint [105] [117] linkC7.id envC5.stickyFingerprintSalt)
          2000 =
        some ⟨linkC7.id,
          generateFingerprint [105] [117] linkC7.id envC5.stickyFingerprintSalt,
          selC5.id, envC5.now + linkC7.stickyTtlHours * 3600000⟩ :=
  ⟨C5_sticky_mapping_lifecycle.1 envC7 linkC7 [105] [117] false
      ⟨[76], fpW, [98], 999999⟩ phW2 rfl rfl rfl rfl (by exact rfl) (by exact rfl)
      (by exact rfl),
    (C5_sticky_mapping_lifecycle.2 envC5 linkC7 [105] [117]
        ⟨[76], fpW, [99], 999999999⟩ selC5 rfl rfl rfl rfl rfl rfl (by decide)
        (by exact rfl) (Or.inl (by exact rfl)) (by exact rfl)).1,
    (C5_sticky_mapping_lifecycle.2 envC5 linkC7 [105] [117]
        ⟨[76], fpW, [99], 999999999⟩ selC5 rfl rfl rfl rfl rfl rfl (by decide)
        (by exact rfl) (Or.inl (by exact rfl)) (by exact rfl)).2 2000 (by decide)⟩

end BranchHQ
